import Mathlib

/-!
Shallow embedding of `src/main.py`, a FastAPI chat backend: users register
and log in, receive signed bearer tokens, and create rooms and post/list
messages in them. Time is modelled as natural-number seconds; the relational
store is modelled as in-memory lists with autoincrement counters; each HTTP
handler is a function from the store (and the request data, including the
bearer token and the wall-clock readings the handler takes) to a response
together with the store after the request. Password hashing and verification
are delegated to passlib in the source, so they enter here as function
parameters of the handlers that use them.
-/

/-- `SECRET_KEY` from main.py: the process-wide symmetric signing secret. -/
def SECRET_KEY : String := "boicandance"

/-- `ACCESS_TOKEN_EXPIRE_MINUTES` from main.py. -/
def ACCESS_TOKEN_EXPIRE_MINUTES : Nat := 30

/-- A decoded JWT claim set as used by this program: the `sub` claim, when
present, and the `exp` claim in seconds since the epoch (every token this
program issues carries `exp`). -/
structure TokenPayload where
  sub : Option String
  exp : Nat
deriving DecidableEq, Repr

/-- A bearer token as received on the wire: either a string that is not a
well-formed JWT at all, or a well-formed JWT whose signature was produced
with `key`. -/
inductive Token where
  | malformed (raw : String)
  | signed (payload : TokenPayload) (key : String)
deriving DecidableEq, Repr

/-- The failure modes of `jose.jwt.decode`; all are subclasses of `JWTError`
and the caller in main.py treats them uniformly. -/
inductive JWTError where
  | malformedToken
  | invalidSignature
  | expiredSignature
deriving DecidableEq, Repr

/-- `jose.jwt.decode(token, key, algorithms=[ALGORITHM])`: rejects strings
that are not well-formed JWTs and signatures made with a different key, and
raises `ExpiredSignatureError` when the `exp` claim is strictly in the past
(python-jose fails exactly when `exp < now`, with zero leeway). -/
def jwtDecode (t : Token) (key : String) (now : Nat) : Except JWTError TokenPayload :=
  match t with
  | .malformed _ => .error .malformedToken
  | .signed payload k =>
    if k = key then
      if payload.exp < now then .error .expiredSignature
      else .ok payload
    else .error .invalidSignature

/-- `create_access_token(data, expires_delta=None)`: copies the claims,
sets `exp` to the current time plus `expires_delta` (defaulting to
`ACCESS_TOKEN_EXPIRE_MINUTES`, here in seconds), and signs the result with
`SECRET_KEY`. Both call sites in main.py pass `data = {"sub": username}` and
leave `expires_delta` unset, so the claim set is modelled by its `sub`. -/
def create_access_token (sub : Option String) (expires_delta : Option Nat) (now : Nat) : Token :=
  .signed { sub := sub, exp := now + expires_delta.getD (ACCESS_TOKEN_EXPIRE_MINUTES * 60) }
    SECRET_KEY

/-- A row of the `users` table. -/
structure User where
  id : Nat
  username : String
  hashed_password : String
deriving DecidableEq, Repr

/-- A row of the `rooms` table. -/
structure Room where
  id : Nat
  name : String
deriving DecidableEq, Repr

/-- A row of the `messages` table. -/
structure Message where
  id : Nat
  room_id : Nat
  user_id : Nat
  content : String
  timestamp : Nat
deriving DecidableEq, Repr

/-- The relational store: the three tables, rows in insertion order, plus
the autoincrement counter of each primary key. -/
structure DB where
  users : List User
  rooms : List Room
  messages : List Message
  next_user_id : Nat
  next_room_id : Nat
  next_message_id : Nat
deriving DecidableEq, Repr

/-- An `HTTPException` as raised by the handlers: status code and detail. -/
structure HTTPError where
  status_code : Nat
  detail : String
deriving DecidableEq, Repr

/-- Request body of `/register` and `/token` (pydantic `UserIn` and the
fields of `OAuth2PasswordRequestForm` that main.py reads). -/
structure UserIn where
  username : String
  password : String
deriving DecidableEq, Repr

/-- Request body of `POST /rooms` (pydantic `RoomIn`). -/
structure RoomIn where
  name : String
deriving DecidableEq, Repr

/-- Request body of `POST /rooms/:room_id/messages` (pydantic `MessageIn`);
`content` is a plain `str` with no further validation. -/
structure MessageIn where
  content : String
deriving DecidableEq, Repr

/-- Response shape of `POST /rooms` (pydantic `RoomOut`). -/
structure RoomOut where
  id : Nat
  name : String
deriving DecidableEq, Repr

/-- Response shape of `POST /rooms/:room_id/messages` (pydantic
`MessageOut`). -/
structure MessageOut where
  id : Nat
  room_id : Nat
  user_id : Nat
  content : String
  timestamp : Nat
deriving DecidableEq, Repr

/-- Response shape of `/register` and `/token` (pydantic `Token` model;
named `TokenOut` here because `Token` names the wire token above). -/
structure TokenOut where
  access_token : Token
  token_type : String
deriving DecidableEq, Repr

/-- `get_user_by_username`: `SELECT * FROM users WHERE username = :username`,
first matching row or none. -/
def get_user_by_username (db : DB) (username : String) : Option User :=
  db.users.find? (fun u => u.username == username)

/-- The 401 produced by the `OAuth2PasswordBearer` scheme itself when the
request carries no bearer authorization header at all. -/
def not_authenticated : HTTPError :=
  { status_code := 401, detail := "Not authenticated" }

/-- `credentials_exception` as constructed inside `get_current_user`. -/
def credentials_exception : HTTPError :=
  { status_code := 401, detail := "Could not validate credentials" }

/-- `get_current_user`: decode the bearer token with `SECRET_KEY`, read its
`sub` claim, and look that username up in the store; a missing token yields
the scheme's 401, and a decode failure, a missing `sub`, or an unknown
username all yield the same `credentials_exception`. -/
def get_current_user (db : DB) (token : Option Token) (now : Nat) : Except HTTPError User :=
  match token with
  | none => .error not_authenticated
  | some t =>
    match jwtDecode t SECRET_KEY now with
    | .error _ => .error credentials_exception
    | .ok payload =>
      match payload.sub with
      | none => .error credentials_exception
      | some username =>
        match get_user_by_username db username with
        | none => .error credentials_exception
        | some user => .ok user

/-- `authenticate_user`: look the user up and check the password against the
stored hash; `verify` stands for `pwd_context.verify`. -/
def authenticate_user (verify : String → String → Bool) (db : DB)
    (username password : String) : Option User :=
  match get_user_by_username db username with
  | none => none
  | some user => if verify password user.hashed_password then some user else none

/-- `POST /register`: a taken username is rejected with 400 and the store is
left as it was; otherwise the user is inserted with the salted hash
`hash user_in.password` (`get_password_hash`, i.e. bcrypt via passlib,
passed in as `hash`) and a token for the new username is issued. -/
def register (hash : String → String) (db : DB) (user_in : UserIn) (now : Nat) :
    Except HTTPError TokenOut × DB :=
  match get_user_by_username db user_in.username with
  | some _ => (.error { status_code := 400, detail := "Username already registered" }, db)
  | none =>
    let new_user : User :=
      { id := db.next_user_id, username := user_in.username,
        hashed_password := hash user_in.password }
    let db' : DB := { db with users := db.users ++ [new_user],
                              next_user_id := db.next_user_id + 1 }
    (.ok { access_token := create_access_token (some user_in.username) none now,
           token_type := "bearer" }, db')

/-- `POST /token`: authenticate and issue a token; failure is a 400 with a
uniform detail, and the store is never changed. -/
def login (verify : String → String → Bool) (db : DB) (form_data : UserIn) (now : Nat) :
    Except HTTPError TokenOut × DB :=
  match authenticate_user verify db form_data.username form_data.password with
  | none => (.error { status_code := 400, detail := "Incorrect username or password" }, db)
  | some user =>
    (.ok { access_token := create_access_token (some user.username) none now,
           token_type := "bearer" }, db)

/-- `POST /rooms` (protected): the `get_current_user` dependency runs before
the handler body; then a duplicate room name is rejected with 400, otherwise
the room is inserted and echoed back. -/
def create_room (db : DB) (token : Option Token) (now : Nat) (room_in : RoomIn) :
    Except HTTPError RoomOut × DB :=
  match get_current_user db token now with
  | .error e => (.error e, db)
  | .ok _ =>
    match db.rooms.find? (fun r => r.name == room_in.name) with
    | some _ => (.error { status_code := 400, detail := "Room already exists" }, db)
    | none =>
      let room_id := db.next_room_id
      let db' : DB := { db with rooms := db.rooms ++ [{ id := room_id, name := room_in.name }],
                                next_room_id := room_id + 1 }
      (.ok { id := room_id, name := room_in.name }, db')

/-- `GET /rooms` (protected): all rooms, table order. -/
def list_rooms (db : DB) (token : Option Token) (now : Nat) :
    Except HTTPError (List Room) × DB :=
  match get_current_user db token now with
  | .error e => (.error e, db)
  | .ok _ => (.ok db.rooms, db)

/-- `POST /rooms/:room_id/messages` (protected): after the auth dependency,
a nonexistent room id is a 404; otherwise the message is inserted with a
timestamp from one `datetime.utcnow()` call (`t_store`, line 184) and the
response is built with a second, independent `datetime.utcnow()` call
(`t_resp`, line 192), exactly as the source does. Real time is
non-decreasing, so callers always have `t_store ≤ t_resp`. -/
def post_message (db : DB) (token : Option Token) (now : Nat) (room_id : Nat)
    (message_in : MessageIn) (t_store t_resp : Nat) :
    Except HTTPError MessageOut × DB :=
  match get_current_user db token now with
  | .error e => (.error e, db)
  | .ok current_user =>
    match db.rooms.find? (fun r => r.id == room_id) with
    | none => (.error { status_code := 404, detail := "Room not found" }, db)
    | some _ =>
      let message_id := db.next_message_id
      let stored : Message :=
        { id := message_id, room_id := room_id, user_id := current_user.id,
          content := message_in.content, timestamp := t_store }
      let db' : DB := { db with messages := db.messages ++ [stored],
                                next_message_id := message_id + 1 }
      (.ok { id := message_id, room_id := room_id, user_id := current_user.id,
             content := message_in.content, timestamp := t_resp }, db')

/-- The Boolean comparison modelling `ORDER BY messages.c.timestamp`. -/
def le_timestamp (a b : Message) : Bool := decide (a.timestamp ≤ b.timestamp)

/-- `GET /rooms/:room_id/messages` (protected): a nonexistent room id is a
404, otherwise the rows whose `room_id` matches, ordered by `timestamp`
(a stable sort of the table read in insertion order). -/
def list_messages (db : DB) (token : Option Token) (now : Nat) (room_id : Nat) :
    Except HTTPError (List Message) × DB :=
  match get_current_user db token now with
  | .error e => (.error e, db)
  | .ok _ =>
    match db.rooms.find? (fun r => r.id == room_id) with
    | none => (.error { status_code := 404, detail := "Room not found" }, db)
    | some _ =>
      (.ok ((db.messages.filter (fun m => m.room_id == room_id)).mergeSort le_timestamp), db)

/-- `GET /debug/users`: no auth dependency and no `response_model`, so the
rows of the `users` table are returned unfiltered, the `hashed_password`
column included. -/
def list_users (db : DB) : List User := db.users

deriving instance DecidableEq for Except

/-! ### Concrete fixtures used to exercise the handlers -/

/-- A deterministic stand-in for `get_password_hash` (bcrypt is salted and
randomized; the handlers treat the hash opaquely, so any function exercises
them). -/
def exHash : String → String := fun p => "$2b$12$" ++ p

/-- A stored bcrypt-style hash for the fixture user. -/
def aliceHash : String := "$2b$12$exampleBcryptHashOfpw1"

/-- A registered user row. -/
def alice : User := { id := 1, username := "alice", hashed_password := aliceHash }

/-- An existing room row. -/
def generalRoom : Room := { id := 1, name := "general" }

/-- A store holding one registered user and one room. -/
def exDB : DB :=
  { users := [alice], rooms := [generalRoom], messages := [],
    next_user_id := 2, next_room_id := 2, next_message_id := 1 }

/-- A token issued for `"alice"` at time 0 with the default TTL. -/
def aliceToken : Token := create_access_token (some "alice") none 0

/-- `exDB` after a successful post of `"hi"` to room 1 at store-time 11. -/
def exMsgDB : DB :=
  { exDB with
      messages := [{ id := 1, room_id := 1, user_id := 1, content := "hi", timestamp := 11 }],
      next_message_id := 2 }

/-- An empty store. -/
def emptyDB : DB :=
  { users := [], rooms := [], messages := [],
    next_user_id := 1, next_room_id := 1, next_message_id := 1 }

/-- `emptyDB` after a successful registration of `"bob"`. -/
def bobDB : DB :=
  { emptyDB with
      users := [{ id := 1, username := "bob", hashed_password := exHash "pw" }],
      next_user_id := 2 }

/-- A store with two rooms and three messages (one in room 2) whose
timestamps are non-decreasing in insertion order. -/
def exChatDB : DB :=
  { users := [alice], rooms := [generalRoom, { id := 2, name := "random" }],
    messages := [{ id := 1, room_id := 1, user_id := 1, content := "a", timestamp := 5 },
                 { id := 2, room_id := 2, user_id := 1, content := "b", timestamp := 6 },
                 { id := 3, room_id := 1, user_id := 1, content := "c", timestamp := 7 }],
    next_user_id := 2, next_room_id := 3, next_message_id := 4 }

/-- `exDB` after a successful post of an empty-content message to room 1. -/
def exEmptyMsgDB : DB :=
  { exDB with
      messages := [{ id := 1, room_id := 1, user_id := 1, content := "", timestamp := 11 }],
      next_message_id := 2 }

/-! ### Theorems -/

/-- Every error `get_current_user` can return carries status code 401:
the scheme's missing-header error and `credentials_exception` are the only
two possibilities. -/
theorem get_current_user_error_401 (db : DB) (token : Option Token) (now : Nat)
    (e : HTTPError) (h : get_current_user db token now = .error e) :
    e.status_code = 401 := by
  unfold get_current_user at h
  split at h
  · exact (Except.error.injEq _ _).mp h ▸ rfl
  · split at h
    · exact (Except.error.injEq _ _).mp h ▸ rfl
    · split at h
      · exact (Except.error.injEq _ _).mp h ▸ rfl
      · split at h
        · exact (Except.error.injEq _ _).mp h ▸ rfl
        · exact absurd h (by simp)

/-- C1: a token issued for subject `s` (signed with the process-wide secret,
expiring `ACCESS_TOKEN_EXPIRE_MINUTES` after issuance) decodes successfully
and yields subject `s` whenever verification happens before the expiry, and
decoding fails with an expired-signature error once the expiry has passed. -/
theorem token_issue_verify_roundtrip (s : String) (t0 now : Nat) :
    (now < t0 + ACCESS_TOKEN_EXPIRE_MINUTES * 60 →
      jwtDecode (create_access_token (some s) none t0) SECRET_KEY now
        = .ok { sub := some s, exp := t0 + ACCESS_TOKEN_EXPIRE_MINUTES * 60 })
    ∧ (t0 + ACCESS_TOKEN_EXPIRE_MINUTES * 60 < now →
      jwtDecode (create_access_token (some s) none t0) SECRET_KEY now
        = .error .expiredSignature) := by
  constructor
  · intro h
    simp [jwtDecode, create_access_token, Option.getD]
    omega
  · intro h
    simp [jwtDecode, create_access_token, Option.getD]
    omega

/-- C1 witness: a token issued for `"alice"` at time 0 decodes at time 10
and is rejected at time 2000. -/
theorem token_issue_verify_roundtrip_witness :
    jwtDecode (create_access_token (some "alice") none 0) SECRET_KEY 10 =
      .ok { sub := some "alice", exp := 0 + ACCESS_TOKEN_EXPIRE_MINUTES * 60 }
    ∧ jwtDecode (create_access_token (some "alice") none 0) SECRET_KEY 2000 =
      .error .expiredSignature :=
  ⟨(token_issue_verify_roundtrip "alice" 0 10).1 (by decide),
   (token_issue_verify_roundtrip "alice" 0 2000).2 (by decide)⟩

/-- C2: whenever a post-message request succeeds, the `user_id` returned in
the response and the `user_id` of the row inserted into the store both equal
the id of the user that `get_current_user` resolved from the bearer token;
neither the body nor the path supplies it. -/
theorem post_message_user_id_from_token (db : DB) (token : Option Token) (now rid : Nat)
    (msg : MessageIn) (t1 t2 : Nat) (out : MessageOut) (db' : DB)
    (h : post_message db token now rid msg t1 t2 = (.ok out, db')) :
    ∃ u, get_current_user db token now = .ok u ∧ out.user_id = u.id ∧
      db'.messages = db.messages ++
        [{ id := db.next_message_id, room_id := rid, user_id := u.id,
           content := msg.content, timestamp := t1 }] := by
  unfold post_message at h
  split at h
  · simp at h
  · rename_i u heq
    split at h
    · simp at h
    · simp only [Prod.mk.injEq, Except.ok.injEq] at h
      obtain ⟨hout, hdb⟩ := h
      exact ⟨u, heq, by rw [← hout], by rw [← hdb]⟩

/-- C2 witness: posting `"hi"` to room 1 of `exDB` with alice's token stores
and returns alice's id. -/
theorem post_message_user_id_from_token_witness :
    ∃ u, get_current_user exDB (some aliceToken) 10 = .ok u ∧
      ({ id := 1, room_id := 1, user_id := 1, content := "hi", timestamp := 12 } : MessageOut).user_id = u.id ∧
      exMsgDB.messages = exDB.messages ++
        [{ id := exDB.next_message_id, room_id := 1, user_id := u.id,
           content := "hi", timestamp := 11 }] :=
  post_message_user_id_from_token exDB (some aliceToken) 10 1 { content := "hi" } 11 12
    { id := 1, room_id := 1, user_id := 1, content := "hi", timestamp := 12 } exMsgDB (by decide)

/-- C3: the debug list-users endpoint returns the stored user rows verbatim,
so the response on a store holding `alice` contains her full row, stored
bcrypt hash included — the claim that no response ever exposes
`password_hash` fails on this endpoint. -/
theorem debug_users_exposes_password_hash :
    alice ∈ list_users exDB ∧ alice.hashed_password = aliceHash := by decide

/-- C4 counterexample: a post-message request to the nonexistent room 99
with an invalid (malformed) bearer token is rejected with the 401
`credentials_exception`, not with a 404, because the auth dependency runs
before the room-existence check. -/
theorem post_message_unauth_counterexample :
    post_message exDB (some (.malformed "not-a-jwt")) 0 99 { content := "hi" } 0 0
      = (.error credentials_exception, exDB)
    ∧ credentials_exception.status_code ≠ 404 := by decide

/-- C4 amended: when the bearer token authenticates and the room id does not
exist, a post-message request yields 404 and the store is unchanged. -/
theorem post_message_nonexistent_room_404 (db : DB) (token : Option Token) (now rid : Nat)
    (msg : MessageIn) (t1 t2 : Nat) (u : User)
    (hauth : get_current_user db token now = .ok u)
    (hroom : db.rooms.find? (fun r => r.id == rid) = none) :
    post_message db token now rid msg t1 t2 =
      (.error { status_code := 404, detail := "Room not found" }, db) := by
  unfold post_message
  rw [hauth, hroom]

/-- C4 witness: posting to the nonexistent room 99 of `exDB` with alice's
valid token yields 404 and leaves the store unchanged. -/
theorem post_message_nonexistent_room_404_witness :
    post_message exDB (some aliceToken) 10 99 { content := "hi" } 11 12 =
      (.error { status_code := 404, detail := "Room not found" }, exDB) :=
  post_message_nonexistent_room_404 exDB (some aliceToken) 10 99 { content := "hi" } 11 12
    alice (by decide) (by decide)

/-- C5: registering a username that already exists in the store fails with
the 400 duplicate-username error, for any password and any hashing function,
and leaves the store exactly as it was; consequently the second of two
registrations of the same username always fails. -/
theorem register_duplicate_username_conflict :
    (∀ (hash : String → String) (db : DB) (u_in : UserIn) (now : Nat) (user : User),
      get_user_by_username db u_in.username = some user →
      register hash db u_in now =
        (.error { status_code := 400, detail := "Username already registered" }, db))
    ∧ (∀ (hash : String → String) (db : DB) (u_in u_in' : UserIn) (now now' : Nat)
        (tok : TokenOut) (db1 : DB), u_in'.username = u_in.username →
      register hash db u_in now = (.ok tok, db1) →
      register hash db1 u_in' now' =
        (.error { status_code := 400, detail := "Username already registered" }, db1)) := by
  constructor
  · intro hash db u_in now user hfound
    unfold register
    rw [hfound]
  · intro hash db u_in u_in' now now' tok db1 hname hreg
    unfold register at hreg
    split at hreg
    · simp at hreg
    · rename_i hnone
      simp only [Prod.mk.injEq, Except.ok.injEq] at hreg
      obtain ⟨-, hdb1⟩ := hreg
      have hfind : get_user_by_username db1 u_in'.username =
          some { id := db.next_user_id, username := u_in.username,
                 hashed_password := hash u_in.password } := by
        rw [← hdb1]
        unfold get_user_by_username at hnone ⊢
        simp only [List.find?_append, hnone, hname]
        simp
      unfold register
      rw [hfind]

/-- C5 witness: registering `"alice"` again over `exDB` fails with 400 and
leaves the store unchanged, and registering `"bob"` twice from the empty
store fails on the second attempt. -/
theorem register_duplicate_username_conflict_witness :
    (register exHash exDB { username := "alice", password := "pw2" } 10 =
      (.error { status_code := 400, detail := "Username already registered" }, exDB))
    ∧ (register exHash bobDB { username := "bob", password := "pw9" } 5 =
      (.error { status_code := 400, detail := "Username already registered" }, bobDB)) :=
  ⟨register_duplicate_username_conflict.1 exHash exDB
      { username := "alice", password := "pw2" } 10 alice (by decide),
   register_duplicate_username_conflict.2 exHash emptyDB
      { username := "bob", password := "pw" } { username := "bob", password := "pw9" } 0 5
      { access_token := create_access_token (some "bob") none 0, token_type := "bearer" }
      bobDB rfl (by decide)⟩

/-- C6: for an authenticated request on an existing room, and a store whose
message log has non-decreasing timestamps in insertion order (the invariant
the server maintains, reading a non-decreasing clock at each insertion),
list-messages returns exactly the rows whose `room_id` matches, in insertion
order, and that order is non-decreasing in `timestamp`. -/
theorem list_messages_filtered_sorted (db : DB) (token : Option Token) (now rid : Nat)
    (u : User) (room : Room)
    (hauth : get_current_user db token now = .ok u)
    (hroom : db.rooms.find? (fun r => r.id == rid) = some room)
    (hmono : db.messages.Pairwise (fun a b => a.timestamp ≤ b.timestamp)) :
    list_messages db token now rid =
      (.ok (db.messages.filter (fun m => m.room_id == rid)), db)
    ∧ (db.messages.filter (fun m => m.room_id == rid)).Pairwise
        (fun a b => a.timestamp ≤ b.timestamp) := by
  have hfil : (db.messages.filter (fun m => m.room_id == rid)).Pairwise
      (fun a b => a.timestamp ≤ b.timestamp) :=
    hmono.sublist (List.filter_sublist _)
  refine ⟨?_, hfil⟩
  unfold list_messages
  rw [hauth, hroom]
  have hsorted : (db.messages.filter (fun m => m.room_id == rid)).Pairwise
      (fun a b => le_timestamp a b = true) := by
    refine hfil.imp ?_
    intro a b hab
    simp [le_timestamp, hab]
  rw [List.mergeSort_of_sorted hsorted]

/-- C6 witness: on a store with messages at timestamps 5, 6, 7 (the middle
one in another room), listing room 1 returns the two room-1 rows in
insertion order, timestamps non-decreasing. -/
theorem list_messages_filtered_sorted_witness :
    list_messages exChatDB (some aliceToken) 10 1 =
      (.ok (exChatDB.messages.filter (fun m => m.room_id == 1)), exChatDB)
    ∧ (exChatDB.messages.filter (fun m => m.room_id == 1)).Pairwise
        (fun a b => a.timestamp ≤ b.timestamp) :=
  list_messages_filtered_sorted exChatDB (some aliceToken) 10 1 alice generalRoom
    (by decide) (by decide) (by decide)

/-- C7: the handler reads the clock once for the stored row (`t_store = 11`)
and again, independently, for the response (`t_resp = 12`); on a run where
the clock advanced between the two reads, the response timestamp (12)
differs from the persisted timestamp (11), refuting the claim that they are
always equal. -/
theorem post_message_timestamp_divergence :
    ((post_message exDB (some aliceToken) 10 1 { content := "hi" } 11 12).1 =
       .ok { id := 1, room_id := 1, user_id := 1, content := "hi", timestamp := 12 })
    ∧ ((post_message exDB (some aliceToken) 10 1 { content := "hi" } 11 12).2.messages.map
         (fun m => m.timestamp) = [11])
    ∧ (12 : Nat) ≠ 11 := by decide

/-- C8 counterexample: a post-message request whose content is the empty
string succeeds and creates a message with empty content, refuting the claim
that such a request does not create a message. -/
theorem empty_content_message_created :
    post_message exDB (some aliceToken) 10 1 { content := "" } 11 11 =
      (.ok { id := 1, room_id := 1, user_id := 1, content := "", timestamp := 11 },
       exEmptyMsgDB) := by decide

/-- C8 amended: the content of a successful post-message request is stored
and echoed verbatim, with no non-emptiness (or any other) validation — in
particular an empty-content request creates an empty-content message. -/
theorem post_message_content_verbatim (db : DB) (token : Option Token) (now rid : Nat)
    (msg : MessageIn) (t1 t2 : Nat) (out : MessageOut) (db' : DB)
    (h : post_message db token now rid msg t1 t2 = (.ok out, db')) :
    out.content = msg.content ∧
    ∃ m : Message, db'.messages = db.messages ++ [m] ∧ m.content = msg.content := by
  unfold post_message at h
  split at h
  · simp at h
  · rename_i u heq
    split at h
    · simp at h
    · simp only [Prod.mk.injEq, Except.ok.injEq] at h
      obtain ⟨hout, hdb⟩ := h
      refine ⟨by rw [← hout], ?_⟩
      exact ⟨_, by rw [← hdb], rfl⟩

/-- C8 witness: the empty-content post on `exDB` stores and returns the
empty string. -/
theorem post_message_content_verbatim_witness :
    ({ id := 1, room_id := 1, user_id := 1, content := "", timestamp := 11 } : MessageOut).content = ""
    ∧ ∃ m : Message, exEmptyMsgDB.messages = exDB.messages ++ [m] ∧ m.content = "" :=
  post_message_content_verbatim exDB (some aliceToken) 10 1 { content := "" } 11 11
    { id := 1, room_id := 1, user_id := 1, content := "", timestamp := 11 } exEmptyMsgDB (by decide)

/-- C9: whenever the auth dependency rejects the bearer token (absent,
malformed, or otherwise unverifiable), every protected endpoint returns that
same error, its status code is 401, and the store is exactly what it was
before the request. -/
theorem protected_endpoints_unauth_no_side_effects (db : DB) (token : Option Token)
    (now : Nat) (room_in : RoomIn) (rid : Nat) (msg : MessageIn) (t1 t2 : Nat)
    (e : HTTPError) (h : get_current_user db token now = .error e) :
    e.status_code = 401
    ∧ create_room db token now room_in = (.error e, db)
    ∧ list_rooms db token now = (.error e, db)
    ∧ post_message db token now rid msg t1 t2 = (.error e, db)
    ∧ list_messages db token now rid = (.error e, db) := by
  refine ⟨get_current_user_error_401 db token now e h, ?_, ?_, ?_, ?_⟩
  · unfold create_room; rw [h]
  · unfold list_rooms; rw [h]
  · unfold post_message; rw [h]
  · unfold list_messages; rw [h]

/-- C9 witness: a malformed token is rejected by all four protected
endpoints with the 401 `credentials_exception` and no change to `exDB`. -/
theorem protected_endpoints_unauth_no_side_effects_witness :
    credentials_exception.status_code = 401
    ∧ create_room exDB (some (.malformed "zz")) 0 { name := "general" } =
        (.error credentials_exception, exDB)
    ∧ list_rooms exDB (some (.malformed "zz")) 0 = (.error credentials_exception, exDB)
    ∧ post_message exDB (some (.malformed "zz")) 0 1 { content := "hi" } 0 0 =
        (.error credentials_exception, exDB)
    ∧ list_messages exDB (some (.malformed "zz")) 0 1 = (.error credentials_exception, exDB) :=
  protected_endpoints_unauth_no_side_effects exDB (some (.malformed "zz")) 0
    { name := "general" } 1 { content := "hi" } 0 0 credentials_exception (by decide)

/-- C10: a correctly signed, unexpired token with no `sub` claim, a
correctly signed unexpired token whose `sub` names a username absent from
the store, and a malformed token all make authentication fail with the
identical 401 `credentials_exception`. -/
theorem get_current_user_uniform_error (db : DB) (now : Nat) (p : TokenPayload)
    (hexp : ¬ p.exp < now) :
    (p.sub = none →
      get_current_user db (some (.signed p SECRET_KEY)) now = .error credentials_exception)
    ∧ (∀ s, p.sub = some s → get_user_by_username db s = none →
      get_current_user db (some (.signed p SECRET_KEY)) now = .error credentials_exception)
    ∧ (∀ raw, get_current_user db (some (.malformed raw)) now = .error credentials_exception) := by
  refine ⟨?_, ?_, ?_⟩
  · intro hsub
    simp [get_current_user, jwtDecode, hexp, hsub]
  · intro s hsub hlookup
    simp [get_current_user, jwtDecode, hexp, hsub, hlookup]
  · intro raw
    simp [get_current_user, jwtDecode]

/-- C10 witness: on `exDB` at time 50, a signed unexpired token with no
`sub`, a signed unexpired token for the unknown user `"mallory"`, and a
malformed token all produce the identical `credentials_exception`. -/
theorem get_current_user_uniform_error_witness :
    get_current_user exDB (some (.signed { sub := none, exp := 100 } SECRET_KEY)) 50 =
      .error credentials_exception
    ∧ get_current_user exDB (some (.signed { sub := some "mallory", exp := 100 } SECRET_KEY)) 50 =
      .error credentials_exception
    ∧ get_current_user exDB (some (.malformed "junk")) 50 = .error credentials_exception :=
  ⟨(get_current_user_uniform_error exDB 50 { sub := none, exp := 100 } (by decide)).1 rfl,
   (get_current_user_uniform_error exDB 50 { sub := some "mallory", exp := 100 } (by decide)).2.1
      "mallory" rfl (by decide),
   (get_current_user_uniform_error exDB 50 { sub := none, exp := 100 } (by decide)).2.2 "junk"⟩
